import Mathlib

/-!
Verification of the multiton logging core of the pythonbytes repository
(logbytes/handler.py and logbytes/logger.py), embedded shallowly.

Python machine integers are modelled as Int, Python dicts as association
lists with unique keys (dictGet / dictSet), exceptions as Except / Option
error values, and object identity as a Nat drawn from a fresh-id counter
in the registry state.  Each class-level operation of the source is a pure
state transformer on RegState.
-/

namespace PyLog

/-- Input accepted by the level validator: Python distinguishes int,
str, and everything else (handler.py lines 96-103). -/
inductive LevelInput
  | intL : Int → LevelInput
  | strL : String → LevelInput
  | otherL : LevelInput
deriving DecidableEq

/-- Exceptions surfaced by the modelled code: ValueError from the level
validator (handler.py lines 100, 103), OSError from an eager file open
(logging.FileHandler via handler.py line 388), and AttributeError from
assigning the stream attribute of a StdErrHandler, which the class
declares as a getter-only property (handler.py lines 516-523). -/
inductive PyError
  | valueError : PyError
  | osError : PyError
  | attributeError : PyError
deriving DecidableEq

/-- Python dict lookup (the `name in cls._instances` test and the
subscript read share this). -/
def dictGet {α : Type} (m : List (String × α)) (k : String) : Option α :=
  match m with
  | [] => none
  | (k1, v1) :: rest => if k1 = k then some v1 else dictGet rest k

/-- Python dict store `m[k] = v`: overwrite an existing key in place,
append a fresh key. -/
def dictSet {α : Type} (m : List (String × α)) (k : String) (v : α) :
    List (String × α) :=
  match m with
  | [] => [(k, v)]
  | (k1, v1) :: rest => if k1 = k then (k, v) :: rest else (k1, v1) :: dictSet rest k v

/-- logging._nameToLevel, the fixed symbolic level table consulted by
_checkLevel (handler.py line 99). -/
def nameToLevel : List (String × Int) :=
  [("CRITICAL", 50), ("FATAL", 50), ("ERROR", 40), ("WARN", 30),
   ("WARNING", 30), ("INFO", 20), ("DEBUG", 10), ("NOTSET", 0)]

/-- _checkLevel (handler.py lines 88-103): an int is returned unchanged;
a string is looked up in the level table or rejected; anything else is
rejected. -/
def checkLevel : LevelInput → Except PyError Int
  | LevelInput.intL n => Except.ok n
  | LevelInput.strL s =>
      match dictGet nameToLevel s with
      | some v => Except.ok v
      | none => Except.error PyError.valueError
  | LevelInput.otherL => Except.error PyError.valueError

/-- Instance data of the custom Handler class (handler.py lines 112-215):
identity, the level stored by __init__ line 157, and the _closed flag of
line 159. -/
structure HandlerInst where
  id : Nat
  level : Int
  closed : Bool
deriving DecidableEq

/-- Attributes that StreamHandler.__init__ (handler.py lines 251-270)
would set on an instance when its body runs. -/
structure StreamAttrs where
  level : Int
  usesStdout : Bool
  closed : Bool
deriving DecidableEq

/-- Instance data of the custom StreamHandler class: identity plus the
optional attribute block. `attrs = none` models an instance whose
__init__ body never executed, so the attributes are absent from the
instance dict. -/
structure StreamInst where
  id : Nat
  attrs : Option StreamAttrs
deriving DecidableEq

/-- Instance data of the custom FileHandler class (handler.py lines
326-451). -/
structure FileInst where
  id : Nat
  level : Int
  filename : String
  mode : String
  delay : Bool
  closed : Bool
deriving DecidableEq

/-- Instance data the custom StdErrHandler class (handler.py lines
455-557) would register at line 497.  Construction in fact always fails
before that line (see stdErrCall), so in every reachable state the
stderr registry dict is empty; the type is still needed to give the
dict its entries. -/
structure StdErrInst where
  id : Nat
  level : Int
  closed : Bool
deriving DecidableEq

/-- Instance data of the custom Logger class (logger.py lines 24-95). -/
structure LoggerInst where
  id : Nat
  level : Int
deriving DecidableEq

/-- The process-wide registry state: the per-class `_instances` dicts,
the module-global `_handlerList` of weak handles (handler.py line 29,
holding instance identities), and the fresh-identity counter. -/
structure RegState where
  handlerInsts : List (String × HandlerInst)
  streamInsts : List (String × StreamInst)
  fileInsts : List (String × FileInst)
  stderrInsts : List (String × StdErrInst)
  loggerInsts : List (String × LoggerInst)
  handlerList : List Nat
  nextId : Nat
deriving DecidableEq

/-- The initial state: every `_instances` dict and `_handlerList` empty. -/
def regInit : RegState :=
  { handlerInsts := [], streamInsts := [], fileInsts := [], stderrInsts := [],
    loggerInsts := [], handlerList := [], nextId := 0 }

/-- Handler(name, level): Handler.__new__ (handler.py lines 122-139)
followed by the automatic re-run of __init__, whose guard (line 150)
makes that re-run a no-op.  For a fresh name, __new__ calls __init__
before inserting (lines 135-137), so the body runs: the level is
normalised through _checkLevel (line 157, a ValueError propagates and
nothing is registered), the identity is appended to _handlerList
(line 162 via _addHandlerRef), and the instance is registered. -/
def handlerCall (name : String) (level : LevelInput) (st : RegState) :
    Except PyError HandlerInst × RegState :=
  match dictGet st.handlerInsts name with
  | some inst => (Except.ok inst, st)
  | none =>
      match checkLevel level with
      | Except.error e => (Except.error e, st)
      | Except.ok lv =>
          (Except.ok { id := st.nextId, level := lv, closed := false },
           { st with
              handlerInsts := dictSet st.handlerInsts name
                { id := st.nextId, level := lv, closed := false },
              handlerList := st.handlerList ++ [st.nextId],
              nextId := st.nextId + 1 })

/-- StreamHandler(name, level, stream): StreamHandler.__new__ (handler.py
lines 228-248) followed by the automatic __init__ call.  __new__ inserts
the blank instance into `_instances` (line 246) before __init__ runs, so
the guard at line 259 always fires and the body (lines 262-270, which
would set the stream, the normalised level and the _closed flag) is
unreachable: the registered instance keeps an empty attribute block, and
the `level` and `stream` arguments are never consumed. -/
def streamCall (name : String) (level : LevelInput) (stream : Option Nat)
    (st : RegState) : StreamInst × RegState :=
  match dictGet st.streamInsts name with
  | some inst => (inst, st)
  | none =>
      ({ id := st.nextId, attrs := none },
       { st with
          streamInsts := dictSet st.streamInsts name
            { id := st.nextId, attrs := none },
          nextId := st.nextId + 1 })

/-- FileHandler(name, level, filename, mode, ..., delay): __new__
(handler.py lines 334-356) returns an existing instance or a blank one,
and __init__ (lines 359-393) then runs for a fresh name: with eager
opening (`delay = False`) the base initializer opens the file (line 388)
and an open failure propagates before anything is registered; on success
the level is normalised (line 391) and the instance registered
(line 393).  `openable` models which paths the file system lets the
process open. -/
def fileCall (openable : String → Bool) (name : String) (level : LevelInput)
    (filename : String) (md : String) (delay : Bool) (st : RegState) :
    Except PyError FileInst × RegState :=
  match dictGet st.fileInsts name with
  | some inst => (Except.ok inst, st)
  | none =>
      if !delay && !(openable filename) then (Except.error PyError.osError, st)
      else
        match checkLevel level with
        | Except.error e => (Except.error e, st)
        | Except.ok lv =>
            (Except.ok { id := st.nextId, level := lv, filename := filename,
                         mode := md, delay := delay, closed := false },
             { st with
                fileInsts := dictSet st.fileInsts name
                  { id := st.nextId, level := lv, filename := filename,
                    mode := md, delay := delay, closed := false },
                nextId := st.nextId + 1 })

/-- Logger(name, level): Logger.__new__ (logger.py lines 32-49) returns
an existing instance, or initialises a fresh one (the inherited
initializer normalises the level through the validator) and registers
it; the automatic __init__ re-run is a no-op through the guard at
line 60. -/
def loggerCall (name : String) (level : LevelInput) (st : RegState) :
    Except PyError LoggerInst × RegState :=
  match dictGet st.loggerInsts name with
  | some inst => (Except.ok inst, st)
  | none =>
      match checkLevel level with
      | Except.error e => (Except.error e, st)
      | Except.ok lv =>
          (Except.ok { id := st.nextId, level := lv },
           { st with
              loggerInsts := dictSet st.loggerInsts name
                { id := st.nextId, level := lv },
              nextId := st.nextId + 1 })

/-- StreamHandler.clearInstances (handler.py lines 303-311): empties the
StreamHandler `_instances` dict and the module-global `_handlerList`. -/
def streamClearInstances (st : RegState) : RegState :=
  { st with streamInsts := [], handlerList := [] }

/-- StreamHandler.countInstances (handler.py lines 314-322): the size of
the StreamHandler `_instances` dict. -/
def streamCountInstances (st : RegState) : Nat :=
  st.streamInsts.length

/-- FileHandler.countInstances (handler.py lines 443-451). -/
def fileCountInstances (st : RegState) : Nat :=
  st.fileInsts.length

/-- A sink as seen by the emission path: the stored level, the _closed
flag, and the attached filter predicates (empty for every instance the
repository constructs, since Filterer.__init__ starts with no filters). -/
structure Sink where
  level : Int
  closed : Bool
  filters : List (Int → Bool)

/-- Outcome of one pass through the emission path: whether a write to
the target was performed, and the exception surfaced, if any. -/
structure EmitOutcome where
  wrote : Bool
  error : Option PyError
deriving DecidableEq

/-- The inherited close(), the only writer of the closed state after
construction: it marks the instance closed and nothing in handler.py
overrides it or ever resets the flag. -/
def close (s : Sink) : Sink :=
  { s with closed := true }

/-- The emission path behind the __call__ methods (handler.py lines
166-181, 273-286, 396-409, 500-513): `handle(record)` runs the attached
filters and, when they pass, performs the write and reports success.
Neither __call__ nor the inherited handle consults the _closed flag, and
no SinkClosedError exists anywhere in the repository. -/
def sinkCall (s : Sink) (record : Int) : EmitOutcome :=
  if s.filters.all (fun f => f record) then { wrote := true, error := none }
  else { wrote := false, error := none }

/-- A concrete sink used to exercise the emission path. -/
def sinkEx : Sink :=
  { level := 10, closed := false, filters := [] }

/-- A file system on which no path can be opened. -/
def neverOpenable : String → Bool :=
  fun _ => false

/-- The mutable process environment seen by StdErrHandler: the identity
of the stream sys.stderr currently names. -/
structure ProcState where
  stderrTarget : Nat
deriving DecidableEq

/-- Whether the StdErrHandler `stream` property carries a setter: the
source (handler.py lines 516-523) declares a getter only, so it does
not. -/
def stdErrStreamHasSetter : Bool := false

/-- Python attribute assignment `self.stream = v` on a StdErrHandler
instance: the class attribute `stream` is a property and therefore a
data descriptor, so the assignment is routed to the property instead of
the instance dict, and a property without a setter raises
AttributeError. -/
def stdErrSetStreamAttr (v : Nat) : Except PyError Unit :=
  if stdErrStreamHasSetter then Except.ok ()
  else Except.error PyError.attributeError

/-- StdErrHandler(name, level): __new__ (handler.py lines 463-477)
returns an existing instance or a blank unregistered one, and __init__
(lines 480-497) then runs for a fresh name.  Its first step,
super().__init__(sys.stderr) at line 491, reaches the inherited base
initializer, which assigns self.stream with the current sys.stderr;
that assignment hits the getter-only class property and raises
AttributeError before setLevel (line 494) or registration (line 497)
can run, leaving the registry state unchanged. -/
def stdErrCall (name : String) (level : LevelInput) (ps : ProcState)
    (st : RegState) : Except PyError StdErrInst × RegState :=
  match dictGet st.stderrInsts name with
  | some inst => (Except.ok inst, st)
  | none =>
      match stdErrSetStreamAttr ps.stderrTarget with
      | Except.error e => (Except.error e, st)
      | Except.ok _ =>
          match checkLevel level with
          | Except.error e => (Except.error e, st)
          | Except.ok lv =>
              (Except.ok { id := st.nextId, level := lv, closed := false },
               { st with
                  stderrInsts := dictSet st.stderrInsts name
                    { id := st.nextId, level := lv, closed := false },
                  nextId := st.nextId + 1 })

/-- The level-gated fan-out inherited from logging.Logger by the custom
Logger (logger.py line 24): isEnabledFor admits the record when the
logger level is at most the record level, and callHandlers then forwards
it to exactly those handlers whose own level is at most the record
level.  Returns the per-sink delivered flags in handler order. -/
def loggerEmit (loggerLevel : Int) (sinkLevels : List Int)
    (recordLevel : Int) : List Bool :=
  if loggerLevel ≤ recordLevel then
    sinkLevels.map (fun hl => decide (hl ≤ recordLevel))
  else
    sinkLevels.map (fun _ => false)

theorem dictGet_dictSet_self {α : Type} (m : List (String × α)) (k : String)
    (v : α) : dictGet (dictSet m k v) k = some v := by
  induction m with
  | nil => simp [dictSet, dictGet]
  | cons hd tl ih =>
      obtain ⟨k1, v1⟩ := hd
      by_cases hk : k1 = k
      · subst hk
        simp [dictSet, dictGet]
      · simp [dictSet, dictGet, hk, ih]

theorem handlerCall_of_mem (st : RegState) (name : String) (lv : LevelInput)
    (i : HandlerInst) (hg : dictGet st.handlerInsts name = some i) :
    handlerCall name lv st = (Except.ok i, st) := by
  unfold handlerCall
  rw [hg]

theorem handlerCall_mem_post (st : RegState) (name : String) (lv : LevelInput)
    (inst : HandlerInst) (st1 : RegState)
    (h : handlerCall name lv st = (Except.ok inst, st1)) :
    dictGet st1.handlerInsts name = some inst := by
  unfold handlerCall at h
  cases hg : dictGet st.handlerInsts name with
  | some i =>
      rw [hg] at h
      simp only [Prod.mk.injEq, Except.ok.injEq] at h
      obtain ⟨h1, h2⟩ := h
      subst h1
      subst h2
      exact hg
  | none =>
      rw [hg] at h
      cases hc : checkLevel lv with
      | error e =>
          rw [hc] at h
          simp at h
      | ok lvv =>
          rw [hc] at h
          simp only [Prod.mk.injEq, Except.ok.injEq] at h
          obtain ⟨h1, h2⟩ := h
          subst h1
          rw [← h2]
          simp [dictGet_dictSet_self]

theorem handlerCall_idem (st : RegState) (name : String) (lv : LevelInput)
    (inst : HandlerInst) (st1 : RegState)
    (h : handlerCall name lv st = (Except.ok inst, st1)) (lv2 : LevelInput) :
    handlerCall name lv2 st1 = (Except.ok inst, st1) :=
  handlerCall_of_mem st1 name lv2 inst (handlerCall_mem_post st name lv inst st1 h)

theorem streamCall_of_mem (st : RegState) (name : String) (lv : LevelInput)
    (s : Option Nat) (i : StreamInst)
    (hg : dictGet st.streamInsts name = some i) :
    streamCall name lv s st = (i, st) := by
  unfold streamCall
  rw [hg]

theorem streamCall_mem_post (st : RegState) (name : String) (lv : LevelInput)
    (s : Option Nat) (inst : StreamInst) (st1 : RegState)
    (h : streamCall name lv s st = (inst, st1)) :
    dictGet st1.streamInsts name = some inst := by
  unfold streamCall at h
  cases hg : dictGet st.streamInsts name with
  | some i =>
      rw [hg] at h
      simp only [Prod.mk.injEq] at h
      obtain ⟨h1, h2⟩ := h
      subst h1
      subst h2
      exact hg
  | none =>
      rw [hg] at h
      simp only [Prod.mk.injEq] at h
      obtain ⟨h1, h2⟩ := h
      subst h1
      rw [← h2]
      simp [dictGet_dictSet_self]

theorem streamCall_idem (st : RegState) (name : String) (lv : LevelInput)
    (s : Option Nat) (inst : StreamInst) (st1 : RegState)
    (h : streamCall name lv s st = (inst, st1)) (lv2 : LevelInput)
    (s2 : Option Nat) : streamCall name lv2 s2 st1 = (inst, st1) :=
  streamCall_of_mem st1 name lv2 s2 inst (streamCall_mem_post st name lv s inst st1 h)

theorem loggerCall_of_mem (st : RegState) (name : String) (lv : LevelInput)
    (i : LoggerInst) (hg : dictGet st.loggerInsts name = some i) :
    loggerCall name lv st = (Except.ok i, st) := by
  unfold loggerCall
  rw [hg]

theorem loggerCall_mem_post (st : RegState) (name : String) (lv : LevelInput)
    (inst : LoggerInst) (st1 : RegState)
    (h : loggerCall name lv st = (Except.ok inst, st1)) :
    dictGet st1.loggerInsts name = some inst := by
  unfold loggerCall at h
  cases hg : dictGet st.loggerInsts name with
  | some i =>
      rw [hg] at h
      simp only [Prod.mk.injEq, Except.ok.injEq] at h
      obtain ⟨h1, h2⟩ := h
      subst h1
      subst h2
      exact hg
  | none =>
      rw [hg] at h
      cases hc : checkLevel lv with
      | error e =>
          rw [hc] at h
          simp at h
      | ok lvv =>
          rw [hc] at h
          simp only [Prod.mk.injEq, Except.ok.injEq] at h
          obtain ⟨h1, h2⟩ := h
          subst h1
          rw [← h2]
          simp [dictGet_dictSet_self]

theorem loggerCall_idem (st : RegState) (name : String) (lv : LevelInput)
    (inst : LoggerInst) (st1 : RegState)
    (h : loggerCall name lv st = (Except.ok inst, st1)) (lv2 : LevelInput) :
    loggerCall name lv2 st1 = (Except.ok inst, st1) :=
  loggerCall_of_mem st1 name lv2 inst (loggerCall_mem_post st name lv inst st1 h)

/-- C1: getOrCreate is idempotent for every kind and name.  For the
Handler, StreamHandler and Logger multitons: once a call for (kind,
name) has produced an instance and a registry state, every subsequent
call for the same name, with any level or stream argument, returns the
very same instance identity and leaves the state unchanged, so no
constructor body runs and no fresh identity is allocated, until an
explicit clear of that kind. -/
theorem getOrCreate_idempotent :
    (∀ (st : RegState) (name : String) (lv : LevelInput) (inst : HandlerInst)
        (st1 : RegState), handlerCall name lv st = (Except.ok inst, st1) →
        ∀ (lv2 : LevelInput), handlerCall name lv2 st1 = (Except.ok inst, st1)) ∧
    (∀ (st : RegState) (name : String) (lv : LevelInput) (s : Option Nat)
        (inst : StreamInst) (st1 : RegState),
        streamCall name lv s st = (inst, st1) →
        ∀ (lv2 : LevelInput) (s2 : Option Nat),
          streamCall name lv2 s2 st1 = (inst, st1)) ∧
    (∀ (st : RegState) (name : String) (lv : LevelInput) (inst : LoggerInst)
        (st1 : RegState), loggerCall name lv st = (Except.ok inst, st1) →
        ∀ (lv2 : LevelInput), loggerCall name lv2 st1 = (Except.ok inst, st1)) :=
  ⟨fun st name lv inst st1 h lv2 => handlerCall_idem st name lv inst st1 h lv2,
   fun st name lv s inst st1 h lv2 s2 => streamCall_idem st name lv s inst st1 h lv2 s2,
   fun st name lv inst st1 h lv2 => loggerCall_idem st name lv inst st1 h lv2⟩

/-- Witness for C1: constructing Handler "app" at level 5 from the empty
registry and requesting the same name again (even at level 7) returns
the same instance and leaves the state untouched. -/
theorem getOrCreate_idempotent_witness :
    handlerCall "app" (LevelInput.intL 7)
      { handlerInsts := [("app", { id := 0, level := 5, closed := false })],
        streamInsts := [], fileInsts := [], stderrInsts := [], loggerInsts := [],
        handlerList := [0], nextId := 1 }
    = (Except.ok { id := 0, level := 5, closed := false },
       { handlerInsts := [("app", { id := 0, level := 5, closed := false })],
         streamInsts := [], fileInsts := [], stderrInsts := [], loggerInsts := [],
         handlerList := [0], nextId := 1 }) :=
  getOrCreate_idempotent.1 regInit "app" (LevelInput.intL 5)
    { id := 0, level := 5, closed := false } _ rfl (LevelInput.intL 7)

/-- C2: claimed that every sink variant stores its level as the
normalised canonical ordinal; in the code a StreamHandler constructed
with the symbolic level "INFO" never stores any level at all, because
StreamHandler.__new__ registers the blank instance (line 246) before
__init__ runs, so the guard at line 259 skips the entire initialisation
body: the returned instance has an empty attribute block. -/
theorem streamSink_level_not_stored :
    ((streamCall "app" (LevelInput.strL "INFO") none regInit).1).attrs = none :=
  rfl

/-- C3 counterexample: after close(), an emit on the sink still performs
the write and surfaces no error, refuting the claim that a closed sink
fails every subsequent emit with SinkClosedError and performs no
write. -/
theorem closed_sink_still_writes :
    (sinkCall (close sinkEx) 40).wrote = true ∧
    (sinkCall (close sinkEx) 40).error = none :=
  ⟨rfl, rfl⟩

/-- C3 amended: once close() has been called the closed flag is set and
never reset (close is idempotent and no operation restores the active
state), but subsequent emit calls are not rejected: the emission path
never consults the closed flag, raises no error, and writes exactly as
it would on the open sink. -/
theorem close_permanent_emit_unchecked :
    ∀ (s : Sink) (record : Int),
      (close s).closed = true ∧
      close (close s) = close s ∧
      (sinkCall (close s) record).error = none ∧
      (sinkCall (close s) record).wrote = (sinkCall s record).wrote := by
  intro s record
  refine ⟨rfl, rfl, ?_, rfl⟩
  unfold sinkCall
  split <;> rfl

/-- C4: construction failure is atomic.  When the FileHandler for a
fresh name is built with eager opening over a path the file system
refuses to open, the error propagates to the caller and the registry
state is returned unchanged, so the count for the file kind is
unchanged. -/
theorem fileSink_construction_atomic :
    ∀ (openable : String → Bool) (name : String) (lv : LevelInput)
      (fn md : String) (st : RegState),
      dictGet st.fileInsts name = none →
      openable fn = false →
      fileCall openable name lv fn md false st = (Except.error PyError.osError, st) ∧
      fileCountInstances (fileCall openable name lv fn md false st).2
        = fileCountInstances st := by
  intro openable name lv fn md st hmem hop
  have hcall : fileCall openable name lv fn md false st
      = (Except.error PyError.osError, st) := by
    unfold fileCall
    rw [hmem]
    simp [hop]
  exact ⟨hcall, by rw [hcall]⟩

/-- Witness for C4: on the empty registry, an eager FileHandler over an
unopenable path fails and leaves the state unchanged. -/
theorem fileSink_construction_atomic_witness :
    fileCall neverOpenable "log" (LevelInput.intL 10) "/bad/path" "a" false regInit
      = (Except.error PyError.osError, regInit) ∧
    fileCountInstances
      (fileCall neverOpenable "log" (LevelInput.intL 10) "/bad/path" "a" false regInit).2
      = fileCountInstances regInit :=
  fileSink_construction_atomic neverOpenable "log" (LevelInput.intL 10)
    "/bad/path" "a" regInit rfl rfl

/-- C5: Scenario A on the stream kind.  Requesting name "app" twice
leaves the count at 1 and yields the same instance, requesting "app2"
raises the count to 2, and clearInstances brings the count to 0. -/
theorem registry_counts_scenarioA :
    streamCountInstances (streamCall "app" (LevelInput.intL 0) none regInit).2 = 1 ∧
    (streamCall "app" (LevelInput.intL 0) none
        (streamCall "app" (LevelInput.intL 0) none regInit).2).1
      = (streamCall "app" (LevelInput.intL 0) none regInit).1 ∧
    streamCountInstances (streamCall "app" (LevelInput.intL 0) none
        (streamCall "app" (LevelInput.intL 0) none regInit).2).2 = 1 ∧
    streamCountInstances (streamCall "app2" (LevelInput.intL 0) none
        (streamCall "app" (LevelInput.intL 0) none
          (streamCall "app" (LevelInput.intL 0) none regInit).2).2).2 = 2 ∧
    streamCountInstances (streamClearInstances
        (streamCall "app2" (LevelInput.intL 0) none
          (streamCall "app" (LevelInput.intL 0) none
            (streamCall "app" (LevelInput.intL 0) none regInit).2).2).2) = 0 :=
  ⟨rfl, rfl, rfl, rfl, rfl⟩

/-- C6: level normalisation is idempotent.  Whenever the validator
accepts an input (integer or symbolic) and yields an ordinal, feeding
that ordinal back through the validator yields the same result as the
original run: normalize(normalize(x)) = normalize(x). -/
theorem checkLevel_idempotent :
    ∀ (x : LevelInput) (v : Int), checkLevel x = Except.ok v →
      checkLevel (LevelInput.intL v) = checkLevel x := by
  intro x v h
  rw [h]
  rfl

/-- Witness for C6: normalising "INFO" yields 20, and re-normalising 20
agrees with the original run. -/
theorem checkLevel_idempotent_witness :
    checkLevel (LevelInput.intL 20) = checkLevel (LevelInput.strL "INFO") :=
  checkLevel_idempotent (LevelInput.strL "INFO") 20 rfl

/-- C7: level normalisation rejects invalid input.  Every string outside
the fixed level table fails with the validator error, and so does every
input that is neither integer nor string; the error is surfaced, never
defaulted. -/
theorem checkLevel_rejects_invalid :
    ∀ (s : String), dictGet nameToLevel s = none →
      checkLevel (LevelInput.strL s) = Except.error PyError.valueError ∧
      checkLevel LevelInput.otherL = Except.error PyError.valueError := by
  intro s hs
  refine ⟨?_, rfl⟩
  simp [checkLevel, hs]

/-- Witness for C7: "TRACE" is not in the level table and is rejected,
as is a non-integer, non-string input. -/
theorem checkLevel_rejects_invalid_witness :
    checkLevel (LevelInput.strL "TRACE") = Except.error PyError.valueError ∧
    checkLevel LevelInput.otherL = Except.error PyError.valueError :=
  checkLevel_rejects_invalid "TRACE" rfl

/-- C8: the claim that a constructed StdErrSink emits to the stream
sys.stderr names at emission time is unrealisable in the code, because
no StdErrSink can ever be constructed: for every fresh name, requested
level and process state, the constructor raises AttributeError (the
inherited base initializer assigns self.stream, which the getter-only
class property rejects) before the level is set or the instance is
registered, and the registry state is returned unchanged. -/
theorem stdErrSink_unconstructible :
    ∀ (name : String) (lv : LevelInput) (ps : ProcState) (st : RegState),
      dictGet st.stderrInsts name = none →
      stdErrCall name lv ps st = (Except.error PyError.attributeError, st) := by
  intro name lv ps st hmem
  unfold stdErrCall
  rw [hmem]
  rfl

/-- Witness for C8: on the empty registry, constructing StdErrHandler
"err" at level 0 fails with AttributeError and leaves the registry
unchanged. -/
theorem stdErrSink_unconstructible_witness :
    stdErrCall "err" (LevelInput.intL 0) { stderrTarget := 0 } regInit
      = (Except.error PyError.attributeError, regInit) :=
  stdErrSink_unconstructible "err" (LevelInput.intL 0) { stderrTarget := 0 }
    regInit rfl

/-- C9 counterexample: with the logger at WARNING (30) and sinks at
DEBUG (10) and ERROR (40), a record at ERROR (40) is delivered to both
sinks, not to the ERROR sink only, because a sink passes every record at
or above its own level. -/
theorem loggerEmit_scenarioC_counterexample :
    loggerEmit 30 [10, 40] 40 = [true, true] ∧
    loggerEmit 30 [10, 40] 40 ≠ [false, true] := by
  decide

/-- C9 amended: with the logger at WARNING and sinks at DEBUG and ERROR,
emitting at INFO writes to neither sink, and emitting at ERROR writes to
both sinks (every sink whose level is at most the record level), giving
two deliveries and zero failures. -/
theorem loggerEmit_scenarioC_amended :
    loggerEmit 30 [10, 40] 20 = [false, false] ∧
    loggerEmit 30 [10, 40] 40 = [true, true] ∧
    (loggerEmit 30 [10, 40] 40).count true = 2 := by
  decide

/-- C10: clearing the stream kind empties the entire module-global
weak-handle list, not only entries of the cleared kind (the list may
hold identities registered by the Handler kind, and all of them are
removed), while the registry dicts of every other kind are left
unchanged. -/
theorem streamClear_clears_shared_list :
    ∀ (st : RegState),
      (streamClearInstances st).handlerList = [] ∧
      (streamClearInstances st).streamInsts = [] ∧
      (streamClearInstances st).handlerInsts = st.handlerInsts ∧
      (streamClearInstances st).fileInsts = st.fileInsts ∧
      (streamClearInstances st).stderrInsts = st.stderrInsts ∧
      (streamClearInstances st).loggerInsts = st.loggerInsts :=
  fun st => ⟨rfl, rfl, rfl, rfl, rfl, rfl⟩

end PyLog
